import Mathlib

/-!
Shallow embedding of the COVID-19 dashboard data pipeline of this repository
(`src/app.py` and `src/covid19/app.py`, pandas on an in-memory frame).

Modelling conventions:
  * a DataFrame is a `List Record` (list order models row order);
  * a numeric cell is `Option ℤ` (`none` models a null/NaN cell; the data
    model's case counts are non-negative integers);
  * a calendar date is a day number `Nat`;
  * `sort_values("Date")` is modelled as a sort by date; the order of rows
    with equal dates after a pandas sort with the default `kind` is
    implementation-defined, so no theorem below depends on tie order
    (a stable insertion sort is used as the concrete model);
  * `groupby("Province")[c].last()` takes, per group in frame order, the last
    non-null value of column `c` (pandas `last` skips nulls);
  * `.reindex(provinces)` re-indexes to the selected province list, giving
    null for provinces without a group, then `.fillna(0)` / `.dropna()`
    zero-fill or drop null results;
  * a correlation value `S / sqrt(D)` is carried exactly as the pair
    `(S, D)` of integers (`CorrEntry`), `D = 0` marking the NaN result
    pandas produces on a zero-variance column.
-/

/-- The seven optional numeric columns used by the charts. -/
inductive Col where
  | newCases
  | newDeaths
  | newRecovered
  | totalCases
  | totalDeaths
  | totalRecovered
  | totalActiveCases
deriving DecidableEq, Repr

/-- One row of the dataset: `Province`, `Date`, and the numeric cells.
`none` models a null/NaN cell. -/
structure Record where
  province : String
  date : Nat
  newCases : Option ℤ := none
  newDeaths : Option ℤ := none
  newRecovered : Option ℤ := none
  totalCases : Option ℤ := none
  totalDeaths : Option ℤ := none
  totalRecovered : Option ℤ := none
  totalActiveCases : Option ℤ := none
deriving DecidableEq, Repr

/-- Cell access of a record by column name. -/
def Record.val (r : Record) : Col → Option ℤ
  | .newCases => r.newCases
  | .newDeaths => r.newDeaths
  | .newRecovered => r.newRecovered
  | .totalCases => r.totalCases
  | .totalDeaths => r.totalDeaths
  | .totalRecovered => r.totalRecovered
  | .totalActiveCases => r.totalActiveCases

/-- Ordering of records by their `Date` cell (the key of `sort_values("Date")`). -/
def dateLe (a b : Record) : Prop := a.date ≤ b.date

instance : DecidableRel dateLe := fun a b => Nat.decLe a.date b.date

instance : IsTotal Record dateLe := ⟨fun a b => Nat.le_total a.date b.date⟩

instance : IsTrans Record dateLe := ⟨fun _ _ _ hab hbc => Nat.le_trans hab hbc⟩

/-- Model of `sort_values("Date")`: sort rows by date.  Tie order among equal
dates is implementation-defined in the source (default quicksort); a stable
sort is used here and no theorem depends on the tie order. -/
def sortByDate (l : List Record) : List Record := List.insertionSort dateLe l

/-- The rows of the (date-sorted) frame belonging to one province: the group
of `groupby("Province")`, in sorted-frame order. -/
def groupRows (rows : List Record) (p : String) : List Record :=
  (sortByDate rows).filter (fun r => r.province == p)

/-- `groupby("Province")[c].last()` looked up at province `p`: the last
non-null value of column `c` in the group, `none` if `p` has no group or the
group's values are all null (pandas `last` skips nulls). -/
def groupLast (rows : List Record) (p : String) (c : Col) : Option ℤ :=
  ((groupRows rows p).filterMap (fun r => r.val c)).getLast?

/-- The distinct dates of the frame in ascending order (index of
`groupby("Date")...sort_index()`). -/
def frameDates (rows : List Record) : List Nat :=
  List.insertionSort (fun a b => a ≤ b) ((rows.map (fun r => r.date)).dedup)

/-- A row of the per-province detail table: projection of a record onto
`Date`, `Province`, `New Cases`, `New Deaths`, `New Recovered`. -/
structure DetailRow where
  date : Nat
  province : String
  newCases : Option ℤ
  newDeaths : Option ℤ
  newRecovered : Option ℤ
deriving DecidableEq, Repr

/-- Projection of a record onto the detail-table columns (`cols_show`). -/
def Record.proj (r : Record) : DetailRow :=
  ⟨r.date, r.province, r.newCases, r.newDeaths, r.newRecovered⟩

/-- Ordering of detail rows by date. -/
def detailLe (a b : DetailRow) : Prop := a.date ≤ b.date

instance : DecidableRel detailLe := fun a b => Nat.decLe a.date b.date

instance : IsTotal DetailRow detailLe := ⟨fun a b => Nat.le_total a.date b.date⟩

instance : IsTrans DetailRow detailLe := ⟨fun _ _ _ hab hbc => Nat.le_trans hab hbc⟩

/-- `dropna()` over a column subset: keep the rows whose cells are non-null
in every listed column. -/
def dropnaRows (rows : List Record) (cols : List Col) : List Record :=
  rows.filter (fun r => cols.all (fun c => (r.val c).isSome))

/-- Cell value with nulls read as 0 (only used on frames already passed
through `dropnaRows`, where the cell is never null). -/
def cellv (r : Record) (c : Col) : ℤ := (r.val c).getD 0

/-- The `n`-scaled centered cross sum of two columns:
`n * Σ xᵢyᵢ - (Σ xᵢ)(Σ yᵢ) = n * Σ (xᵢ - x̄)(yᵢ - ȳ)`, the building block of
the Pearson matrix of `DataFrame.corr()`.  The common scalings (`n` here,
`1/(n-1)` in pandas) cancel in the correlation quotient
`S_ij / sqrt (S_ii * S_jj)`, so this integer form carries the correlation
exactly. -/
def crossSum (rows : List Record) (i j : Col) : ℤ :=
  (rows.length : ℤ) * (rows.map (fun r => cellv r i * cellv r j)).sum
    - (rows.map (fun r => cellv r i)).sum * (rows.map (fun r => cellv r j)).sum

/-- One entry of the correlation matrix, carried exactly: the float value
rendered by the heatmap is `num / sqrt denSq`, which is NaN when
`denSq = 0` (zero variance in a column of the pair). -/
structure CorrEntry where
  num : ℤ
  denSq : ℤ
deriving DecidableEq, Repr

/-- The entry is pandas NaN: its divisor `sqrt denSq` is zero. -/
def CorrEntry.isNaN (e : CorrEntry) : Prop := e.denSq = 0

instance : DecidablePred CorrEntry.isNaN := fun e => inferInstanceAs (Decidable (e.denSq = 0))

/-- The entry's float value equals exactly 1.0: `num / sqrt denSq = 1`,
i.e. `num > 0` and `num ^ 2 = denSq`. -/
def CorrEntry.repOne (e : CorrEntry) : Prop := 0 < e.num ∧ e.num ^ 2 = e.denSq

instance : DecidablePred CorrEntry.repOne := fun e =>
  inferInstanceAs (Decidable (0 < e.num ∧ e.num ^ 2 = e.denSq))

/-- The `(i, j)` entry of `corr_df.corr()`:
`S_ij / sqrt (S_ii * S_jj)` as an exact `CorrEntry`. -/
def corrEntry (rows : List Record) (i j : Col) : CorrEntry :=
  ⟨crossSum rows i j, crossSum rows i i * crossSum rows j j⟩

/-- The correlation matrix over a column list, row-major. -/
def corrMatrix (rows : List Record) (cols : List Col) :
    List (List CorrEntry) :=
  cols.map (fun i => cols.map (fun j => corrEntry rows i j))

/-- Error modes that halt the page script: `st.stop` on a missing file or a
missing mandatory column (SchemaInvalid), and an uncaught pandas `KeyError`. -/
inductive StopError where
  | dataUnavailable
  | schemaInvalidDate
  | schemaInvalidProvince
  | keyError
deriving DecidableEq, Repr

/-- The schema of the loaded CSV: presence of the two mandatory columns and
the list of optional numeric columns present. -/
structure Schema where
  hasDate : Bool
  hasProvince : Bool
  present : List Col
deriving DecidableEq, Repr

namespace App

/-- `load_data` of src/app.py lines 33-41: stop when the file is missing,
stop when the `Date` column is missing, otherwise return the frame. -/
def load_data (fileExists : Bool) (s : Schema) : Except StopError Schema :=
  if !fileExists then .error .dataUnavailable
  else if !s.hasDate then .error .schemaInvalidDate
  else .ok s

/-- src/app.py startup through the `Province` check of line 47: the loader,
then `st.stop` when the `Province` column is missing.  An `.ok` result means
the script reaches the sidebar/filter stage. -/
def startup (fileExists : Bool) (s : Schema) : Except StopError Schema :=
  match load_data fileExists s with
  | .error e => .error e
  | .ok d => if !d.hasProvince then .error .schemaInvalidProvince else .ok d

/-- The check of src/app.py lines 59-60: a sidebar validation warning is
shown when the start date is after the end date; execution continues. -/
def invalid_range_warning (s e : Nat) : Bool := decide (e < s)

/-- `mask_tgl` of src/app.py line 63: inclusive date-range mask. -/
def mask_tgl (s e : Nat) (r : Record) : Bool :=
  decide (s ≤ r.date) && decide (r.date ≤ e)

/-- `mask_prov` of src/app.py line 64: membership of the row's province in the
selected province list. -/
def mask_prov (provinces : List String) (r : Record) : Bool :=
  provinces.contains r.province

/-- `filtered_df` of src/app.py line 65: rows satisfying both masks, in
dataset row order. -/
def filtered_df (df : List Record) (provinces : List String) (s e : Nat) :
    List Record :=
  df.filter (fun r => mask_tgl s e r && mask_prov provinces r)

/-- `bar_data` of src/app.py line 73:
`sort_values.groupby.last.reindex(provinces).fillna(0)` on `Total Cases`,
as the list of (province, value) pairs in selected order. -/
def bar_data (rows : List Record) (provinces : List String) :
    List (String × ℤ) :=
  provinces.map (fun p => (p, (groupLast rows p Col.totalCases).getD 0))

/-- `scat_df` of src/app.py line 88: per-column `last` of `Total Cases` and
`Total Deaths`, `reindex(provinces)`, then `dropna` (a province is kept only
when both columns produced a value). -/
def scat_df (rows : List Record) (provinces : List String) :
    List (String × ℤ × ℤ) :=
  provinces.filterMap (fun p =>
    (groupLast rows p Col.totalCases).bind (fun a =>
      (groupLast rows p Col.totalDeaths).map (fun b => (p, a, b))))

/-- `pie_df` of src/app.py line 101: `last` of `Total Cases`,
`reindex(provinces)`, then `dropna`. -/
def pie_df (rows : List Record) (provinces : List String) :
    List (String × ℤ) :=
  provinces.filterMap (fun p =>
    (groupLast rows p Col.totalCases).map (fun v => (p, v)))

/-- `pie_rec_df` of src/app.py line 127: same reduction on `Total Recovered`. -/
def pie_rec_df (rows : List Record) (provinces : List String) :
    List (String × ℤ) :=
  provinces.filterMap (fun p =>
    (groupLast rows p Col.totalRecovered).map (fun v => (p, v)))

/-- `area_df` of src/app.py line 112: per date, the sum of the non-null
`Total Cases` cells of that date, dates ascending. -/
def area_df (rows : List Record) : List (Nat × ℤ) :=
  (frameDates rows).map (fun d =>
    (d, ((rows.filter (fun r => r.date == d)).filterMap
          (fun r => r.val Col.totalCases)).sum))

/-- `cols` of src/app.py lines 142-143: the columns of the seven-name list
present in the frame, in that order. -/
def corrCols (present : List Col) : List Col :=
  [Col.newCases, Col.newDeaths, Col.newRecovered, Col.totalCases,
   Col.totalDeaths, Col.totalRecovered, Col.totalActiveCases].filter
    (fun c => decide (c ∈ present))

/-- `corr_df` of src/app.py line 144: the filtered frame restricted to the
qualifying columns with null-holding rows dropped. -/
def corrRows (present : List Col) (rows : List Record) : List Record :=
  dropnaRows rows (corrCols present)

/-- The guard of src/app.py line 145: the heatmap is computed only when
`corr_df` is nonempty and at least two columns qualify. -/
def corrComputed (present : List Col) (rows : List Record) : Bool :=
  !(corrRows present rows).isEmpty && decide (2 ≤ (corrCols present).length)

/-- The heatmap stage output: the column list and the correlation matrix when
the guard passes, `none` (chart skipped, no error) otherwise. -/
def corr_result (present : List Col) (rows : List Record) :
    Option (List Col × List (List CorrEntry)) :=
  if corrComputed present rows then
    some (corrCols present, corrMatrix (corrRows present rows) (corrCols present))
  else none

/-- `show_df` of src/app.py lines 158-160: the filtered rows of one province
projected onto `cols_show` and sorted ascending by date (`reset_index` is the
positional indexing of the list). -/
def show_df (rows : List Record) (p : String) : List DetailRow :=
  List.insertionSort detailLe
    ((rows.filter (fun r => r.province == p)).map Record.proj)

/-- The detail-table stage of src/app.py lines 151-161: rendered only when the
filtered frame is nonempty, one table per selected province. -/
def table_result (rows : List Record) (provinces : List String) :
    Option (List (String × List DetailRow)) :=
  if rows.isEmpty then none
  else some (provinces.map (fun p => (p, show_df rows p)))

end App

namespace Cov

/-- `load_data` of src/covid19/app.py lines 25-35: stop when the file is
missing; a missing `Date` column only raises a warning (the Bool of the
result) and the frame is still returned. -/
def load_data (fileExists : Bool) (s : Schema) :
    Except StopError (Schema × Bool) :=
  if !fileExists then .error .dataUnavailable
  else .ok (s, !s.hasDate)

/-- src/covid19/app.py startup: the loader, the `Province` `st.stop` check of
line 42, then the date-bound computation of line 54, which raises an uncaught
`KeyError` when the `Date` column is absent. -/
def startup (fileExists : Bool) (s : Schema) :
    Except StopError (Schema × Bool) :=
  match load_data fileExists s with
  | .error e => .error e
  | .ok d =>
      if !d.1.hasProvince then .error .schemaInvalidProvince
      else if !d.1.hasDate then .error .keyError
      else .ok d

/-- The check of src/covid19/app.py lines 59-60. -/
def invalid_range_warning (s e : Nat) : Bool := decide (e < s)

/-- `mask_tgl` of src/covid19/app.py line 63. -/
def mask_tgl (s e : Nat) (r : Record) : Bool :=
  decide (s ≤ r.date) && decide (r.date ≤ e)

/-- `mask_prov` of src/covid19/app.py line 64. -/
def mask_prov (provinces : List String) (r : Record) : Bool :=
  provinces.contains r.province

/-- `filtered_df` of src/covid19/app.py line 65. -/
def filtered_df (df : List Record) (provinces : List String) (s e : Nat) :
    List Record :=
  df.filter (fun r => mask_tgl s e r && mask_prov provinces r)

/-- `bar_data` of src/covid19/app.py lines 73-79. -/
def bar_data (rows : List Record) (provinces : List String) :
    List (String × ℤ) :=
  provinces.map (fun p => (p, (groupLast rows p Col.totalCases).getD 0))

/-- `scat_df` of src/covid19/app.py lines 99-105. -/
def scat_df (rows : List Record) (provinces : List String) :
    List (String × ℤ × ℤ) :=
  provinces.filterMap (fun p =>
    (groupLast rows p Col.totalCases).bind (fun a =>
      (groupLast rows p Col.totalDeaths).map (fun b => (p, a, b))))

/-- `pie_df` of src/covid19/app.py lines 123-129. -/
def pie_df (rows : List Record) (provinces : List String) :
    List (String × ℤ) :=
  provinces.filterMap (fun p =>
    (groupLast rows p Col.totalCases).map (fun v => (p, v)))

/-- `area_df` of src/covid19/app.py lines 141-145. -/
def area_df (rows : List Record) : List (Nat × ℤ) :=
  (frameDates rows).map (fun d =>
    (d, ((rows.filter (fun r => r.date == d)).filterMap
          (fun r => r.val Col.totalCases)).sum))

/-- `cols` of src/covid19/app.py lines 165-166: only five column names are
listed (`New Recovered` and `Total Recovered` are not considered). -/
def corrCols (present : List Col) : List Col :=
  [Col.newCases, Col.newDeaths, Col.totalCases,
   Col.totalDeaths, Col.totalActiveCases].filter
    (fun c => decide (c ∈ present))

/-- `corr_df` of src/covid19/app.py line 167. -/
def corrRows (present : List Col) (rows : List Record) : List Record :=
  dropnaRows rows (corrCols present)

/-- The guard of src/covid19/app.py line 168 (negated: the warning branch is
taken when `corr_df` is empty or fewer than two columns qualify). -/
def corrComputed (present : List Col) (rows : List Record) : Bool :=
  !(corrRows present rows).isEmpty && decide (2 ≤ (corrCols present).length)

/-- The heatmap stage output of src/covid19/app.py lines 164-174. -/
def corr_result (present : List Col) (rows : List Record) :
    Option (List Col × List (List CorrEntry)) :=
  if corrComputed present rows then
    some (corrCols present, corrMatrix (corrRows present rows) (corrCols present))
  else none

/-- `show_df` of src/covid19/app.py lines 189-193. -/
def show_df (rows : List Record) (p : String) : List DetailRow :=
  List.insertionSort detailLe
    ((rows.filter (fun r => r.province == p)).map Record.proj)

/-- The detail-table stage of src/covid19/app.py lines 177-194. -/
def table_result (rows : List Record) (provinces : List String) :
    Option (List (String × List DetailRow)) :=
  if rows.isEmpty then none
  else some (provinces.map (fun p => (p, show_df rows p)))

end Cov

/-! ### Helper lemmas -/

lemma head?_filterMap_of_isSome {α β : Type} (f : α → Option β) (l : List α)
    (h : ∀ x ∈ l, (f x).isSome) : (l.filterMap f).head? = l.head?.bind f := by
  cases l with
  | nil => rfl
  | cons a t =>
      obtain ⟨b, hb⟩ := Option.isSome_iff_exists.mp (h a (List.mem_cons_self a t))
      simp [List.filterMap_cons, hb]

lemma getLast?_filterMap_of_isSome {α β : Type} (f : α → Option β) (l : List α)
    (h : ∀ x ∈ l, (f x).isSome) : (l.filterMap f).getLast? = l.getLast?.bind f := by
  rw [← List.head?_reverse, ← List.head?_reverse, ← List.filterMap_reverse]
  exact head?_filterMap_of_isSome f l.reverse (fun x hx => h x (List.mem_reverse.mp hx))

lemma getLast?_eq_of_sorted_max (l : List Record) (r : Record)
    (hs : List.Sorted dateLe l) (hr : r ∈ l)
    (hmax : ∀ x ∈ l, x = r ∨ x.date < r.date) : l.getLast? = some r := by
  induction l with
  | nil => cases hr
  | cons a t ih =>
      cases t with
      | nil =>
          rw [List.mem_singleton] at hr
          simp [hr]
      | cons b t2 =>
          rw [List.getLast?_cons_cons]
          apply ih hs.of_cons
          · rcases List.mem_cons.mp hr with hra | hmem
            · rcases hmax b (List.mem_cons_of_mem _ (List.mem_cons_self b t2)) with hbr | hbl
              · exact hbr ▸ List.mem_cons_self b t2
              · exfalso
                have hab : dateLe a b :=
                  List.rel_of_sorted_cons hs b (List.mem_cons_self b t2)
                rw [hra] at hbl
                exact absurd (Nat.lt_of_le_of_lt hab hbl) (Nat.lt_irrefl _)
            · exact hmem
          · intro x hx
            exact hmax x (List.mem_cons_of_mem _ hx)

/-! ### Claim theorems -/

/-- C1: the Filtered View contains exactly the dataset records whose province
is in the selected set and whose date lies in the inclusive interval
(soundness and completeness of `filtered_df`). -/
theorem C1_filter_exact (df : List Record) (provinces : List String)
    (s e : Nat) (r : Record) :
    r ∈ App.filtered_df df provinces s e ↔
      r ∈ df ∧ r.province ∈ provinces ∧ s ≤ r.date ∧ r.date ≤ e := by
  simp only [App.filtered_df, App.mask_tgl, App.mask_prov, List.mem_filter,
    Bool.and_eq_true, decide_eq_true_eq, List.elem_iff]
  tauto

/-- C6: with the start date strictly after the end date the sidebar warning is
raised, filtering still runs and returns an empty Filtered View (in both
files), and no failure occurs. -/
theorem C6_invalid_range (df : List Record) (provinces : List String)
    (s e : Nat) (h : e < s) :
    App.invalid_range_warning s e = true ∧
      App.filtered_df df provinces s e = [] ∧
      Cov.invalid_range_warning s e = true ∧
      Cov.filtered_df df provinces s e = [] := by
  have hemp : ∀ (r : Record), ¬(decide (s ≤ r.date) && decide (r.date ≤ e)
      && provinces.contains r.province) = true := by
    intro r hcon
    simp only [Bool.and_eq_true, decide_eq_true_eq] at hcon
    exact absurd (Nat.le_trans hcon.1.1 hcon.1.2) (Nat.not_le.mpr h)
  refine ⟨by simp [App.invalid_range_warning, h], ?_, by simp [Cov.invalid_range_warning, h], ?_⟩
  · exact List.filter_eq_nil_iff.mpr fun r _ => hemp r
  · exact List.filter_eq_nil_iff.mpr fun r _ => hemp r

/-- Witness for C6 at a concrete dataset and inverted range. -/
theorem C6_invalid_range_witness :
    (1 : Nat) < 5 ∧
      (App.invalid_range_warning 5 1 = true ∧
        App.filtered_df [{ province := "A", date := 3 }] ["A"] 5 1 = [] ∧
        Cov.invalid_range_warning 5 1 = true ∧
        Cov.filtered_df [{ province := "A", date := 3 }] ["A"] 5 1 = []) :=
  ⟨by decide, C6_invalid_range [{ province := "A", date := 3 }] ["A"] 5 1 (by decide)⟩

/-- C8: the per-province detail table is exactly the Filtered View's rows of
that province projected onto the five `cols_show` columns, sorted ascending
by date (as a list, so re-indexing from zero is positional), with no
aggregation; both files compute the same table. -/
theorem C8_detail_table (df : List Record) (provinces : List String)
    (s e : Nat) (p : String) :
    (App.show_df (App.filtered_df df provinces s e) p).Perm
      (((App.filtered_df df provinces s e).filter
        (fun r => r.province == p)).map Record.proj) ∧
    List.Sorted detailLe (App.show_df (App.filtered_df df provinces s e) p) ∧
    Cov.show_df (Cov.filtered_df df provinces s e) p =
      App.show_df (App.filtered_df df provinces s e) p :=
  ⟨List.perm_insertionSort detailLe _, List.sorted_insertionSort detailLe _, rfl⟩

/-- Every member of a province group is a frame row of that province. -/
lemma mem_groupRows (rows : List Record) (p : String) (x : Record)
    (hx : x ∈ groupRows rows p) : x ∈ rows ∧ x.province = p := by
  rw [groupRows, List.mem_filter] at hx
  refine ⟨?_, by simpa using hx.2⟩
  have := hx.1
  rwa [sortByDate, List.mem_insertionSort] at this

/-- A province group is sorted by date. -/
lemma sorted_groupRows (rows : List Record) (p : String) :
    List.Sorted dateLe (groupRows rows p) :=
  (List.sorted_insertionSort dateLe rows).filter _

/-- A frame row of the province is in the province group. -/
lemma mem_groupRows_of_mem (rows : List Record) (p : String) (x : Record)
    (hx : x ∈ rows) (hp : x.province = p) : x ∈ groupRows rows p := by
  rw [groupRows, List.mem_filter]
  exact ⟨by rwa [sortByDate, List.mem_insertionSort], by simp [hp]⟩

/-- The latest-per-region reduction at a region whose in-range record of
maximum date is unique and whose in-range values are all non-null: it returns
the value of the maximum-date record. -/
lemma groupLast_eq_of_unique_max (rows : List Record) (p : String) (c : Col)
    (r : Record) (hr : r ∈ rows) (hp : r.province = p)
    (hmax : ∀ x ∈ rows, x.province = p → x = r ∨ x.date < r.date)
    (hsome : ∀ x ∈ rows, x.province = p → (x.val c).isSome) :
    groupLast rows p c = r.val c := by
  have hlast : (groupRows rows p).getLast? = some r :=
    getLast?_eq_of_sorted_max _ r (sorted_groupRows rows p)
      (mem_groupRows_of_mem rows p r hr hp)
      (fun x hx => hmax x (mem_groupRows rows p x hx).1 (mem_groupRows rows p x hx).2)
  rw [groupLast, getLast?_filterMap_of_isSome _ _
    (fun x hx => hsome x (mem_groupRows rows p x hx).1 (mem_groupRows rows p x hx).2),
    hlast]
  rfl

/-- C2 (amended: among the region's in-range records with non-null values —
pandas `last` skips nulls; here all values are non-null as the claim's
`d1 < ... < dn` listing presupposes): the latest-per-region reduction feeding
the bar, scatter and pie charts returns the value of the unique maximum-date
record of the region, and the same value on any row permutation of the
dataset. -/
theorem C2_latest_at_max_date (df df₂ : List Record) (provinces : List String)
    (s e : Nat) (p : String) (c : Col) (r : Record)
    (hperm : df.Perm df₂)
    (hr : r ∈ App.filtered_df df provinces s e) (hp : r.province = p)
    (hmax : ∀ x ∈ App.filtered_df df provinces s e,
      x.province = p → x = r ∨ x.date < r.date)
    (hsome : ∀ x ∈ App.filtered_df df provinces s e,
      x.province = p → (x.val c).isSome) :
    groupLast (App.filtered_df df provinces s e) p c = r.val c ∧
    groupLast (App.filtered_df df₂ provinces s e) p c = r.val c := by
  have hpermf : (App.filtered_df df provinces s e).Perm
      (App.filtered_df df₂ provinces s e) := hperm.filter _
  refine ⟨groupLast_eq_of_unique_max _ p c r hr hp hmax hsome, ?_⟩
  exact groupLast_eq_of_unique_max _ p c r (hpermf.mem_iff.mp hr) hp
    (fun x hx => hmax x (hpermf.mem_iff.mpr hx))
    (fun x hx => hsome x (hpermf.mem_iff.mpr hx))

/-- Witness for C2 on a two-record region and a reversed row order. -/
theorem C2_latest_at_max_date_witness :
    [({ province := "P", date := 1, totalCases := some 3 } : Record),
     { province := "P", date := 2, totalCases := some 7 }].Perm
      [{ province := "P", date := 2, totalCases := some 7 },
       { province := "P", date := 1, totalCases := some 3 }] ∧
    groupLast (App.filtered_df
      [({ province := "P", date := 1, totalCases := some 3 } : Record),
       { province := "P", date := 2, totalCases := some 7 }] ["P"] 0 10)
      "P" Col.totalCases = some 7 ∧
    groupLast (App.filtered_df
      [({ province := "P", date := 2, totalCases := some 7 } : Record),
       { province := "P", date := 1, totalCases := some 3 }] ["P"] 0 10)
      "P" Col.totalCases = some 7 := by
  have h := C2_latest_at_max_date
    [{ province := "P", date := 1, totalCases := some 3 },
     { province := "P", date := 2, totalCases := some 7 }]
    [{ province := "P", date := 2, totalCases := some 7 },
     { province := "P", date := 1, totalCases := some 3 }]
    ["P"] 0 10 "P" Col.totalCases
    { province := "P", date := 2, totalCases := some 7 }
    (by decide) (by decide) rfl (by decide) (by decide)
  exact ⟨by decide, h.1, h.2⟩

/-- Counterexample to C2 as stated: when the maximum-date record's value is
null, the reduction returns the older non-null value, not the value of the
maximum-date record (pandas `last` skips nulls). -/
theorem C2_null_at_max_cex :
    (({ province := "P", date := 2 } : Record) ∈
        App.filtered_df
          [({ province := "P", date := 1, totalCases := some 5 } : Record),
           { province := "P", date := 2 }] ["P"] 0 10 ∧
      ∀ x ∈ App.filtered_df
          [({ province := "P", date := 1, totalCases := some 5 } : Record),
           { province := "P", date := 2 }] ["P"] 0 10,
        x.date ≤ 2) ∧
    Record.val { province := "P", date := 2 } Col.totalCases = none ∧
    groupLast (App.filtered_df
      [({ province := "P", date := 1, totalCases := some 5 } : Record),
       { province := "P", date := 2 }] ["P"] 0 10) "P" Col.totalCases =
      some 5 := by
  refine ⟨⟨by decide, by decide⟩, rfl, by decide⟩

/-- The latest-per-region reduction of a region with no frame rows is null. -/
lemma groupLast_eq_none (rows : List Record) (p : String) (c : Col)
    (hempty : ∀ x ∈ rows, x.province ≠ p) : groupLast rows p c = none := by
  have hgr : groupRows rows p = [] := by
    rw [groupRows]
    apply List.filter_eq_nil_iff.mpr
    intro x hx
    rw [sortByDate, List.mem_insertionSort] at hx
    simp [hempty x hx]
  rw [groupLast, hgr]
  rfl

/-- The latest-per-region reduction of a region with a non-null in-range cell
produces a value. -/
lemma groupLast_isSome (rows : List Record) (p : String) (c : Col)
    (x : Record) (hx : x ∈ rows) (hp : x.province = p)
    (hs : (x.val c).isSome) : ∃ v, groupLast rows p c = some v := by
  obtain ⟨v, hv⟩ := Option.isSome_iff_exists.mp hs
  have hmem : v ∈ (groupRows rows p).filterMap (fun r => r.val c) :=
    List.mem_filterMap.mpr ⟨x, mem_groupRows_of_mem rows p x hx hp, hv⟩
  have hne : (groupRows rows p).filterMap (fun r => r.val c) ≠ [] :=
    List.ne_nil_of_mem hmem
  obtain ⟨w, hw⟩ :=
    Option.isSome_iff_exists.mp (List.getLast?_isSome.mpr hne)
  exact ⟨w, by rw [groupLast, hw]⟩

/-- The shape of a scatter element produced at province `q`. -/
lemma scat_elem_shape (rows : List Record) (q : String) (t : String × ℤ × ℤ)
    (h : (groupLast rows q Col.totalCases).bind (fun a =>
      (groupLast rows q Col.totalDeaths).map (fun b => (q, a, b))) = some t) :
    t.1 = q ∧ groupLast rows q Col.totalCases = some t.2.1 ∧
      groupLast rows q Col.totalDeaths = some t.2.2 := by
  cases hgl : groupLast rows q Col.totalCases with
  | none => rw [hgl] at h; cases h
  | some a =>
      cases hgd : groupLast rows q Col.totalDeaths with
      | none => rw [hgl, hgd] at h; cases h
      | some b =>
          rw [hgl, hgd] at h
          have h2 : some ((q, a, b) : String × ℤ × ℤ) = some t := h
          rw [← Option.some.inj h2]
          exact ⟨rfl, rfl, rfl⟩

/-- The shape of a pie element produced at province `q`. -/
lemma pie_elem_shape (rows : List Record) (q : String) (t : String × ℤ)
    (h : (groupLast rows q Col.totalCases).map (fun v => (q, v)) = some t) :
    t.1 = q ∧ groupLast rows q Col.totalCases = some t.2 := by
  cases hgl : groupLast rows q Col.totalCases with
  | none => rw [hgl] at h; cases h
  | some a =>
      rw [hgl] at h
      have h2 : some ((q, a) : String × ℤ) = some t := h
      rw [← Option.some.inj h2]
      exact ⟨rfl, rfl⟩

/-- C3 (amended: a region with records is dropped (scatter/pie) or zero-filled
(bar) exactly when its relevant values are all null, since the same
`reindex`-null/`dropna`/`fillna` mechanism removes null reductions): a
selected region with no records in the Filtered View is mapped to 0 by the
bar aggregation and dropped by the scatter and pie aggregations; a selected
region with a non-null in-range value is kept with that latest value. -/
theorem C3_missing_region_policy (df : List Record) (provinces : List String)
    (s e : Nat) (p : String) :
    (p ∈ provinces →
      (∀ x ∈ App.filtered_df df provinces s e, x.province ≠ p) →
      ((p, (0 : ℤ)) ∈
          App.bar_data (App.filtered_df df provinces s e) provinces ∧
        p ∉ (App.scat_df (App.filtered_df df provinces s e) provinces).map
          (fun t => t.1) ∧
        p ∉ (App.pie_df (App.filtered_df df provinces s e) provinces).map
          Prod.fst)) ∧
    (p ∈ provinces →
      (∃ x ∈ App.filtered_df df provinces s e,
        x.province = p ∧ (x.val Col.totalCases).isSome) →
      ∃ v, groupLast (App.filtered_df df provinces s e) p Col.totalCases =
          some v ∧
        (p, v) ∈ App.bar_data (App.filtered_df df provinces s e) provinces ∧
        (p, v) ∈ App.pie_df (App.filtered_df df provinces s e) provinces) ∧
    (p ∈ provinces →
      (∃ x ∈ App.filtered_df df provinces s e,
        x.province = p ∧ (x.val Col.totalCases).isSome) →
      (∃ y ∈ App.filtered_df df provinces s e,
        y.province = p ∧ (y.val Col.totalDeaths).isSome) →
      p ∈ (App.scat_df (App.filtered_df df provinces s e) provinces).map
        (fun t => t.1)) := by
  refine ⟨?_, ?_, ?_⟩
  · intro hp hempty
    have hnone : ∀ c, groupLast (App.filtered_df df provinces s e) p c = none :=
      fun c => groupLast_eq_none _ p c hempty
    refine ⟨?_, ?_, ?_⟩
    · exact List.mem_map.mpr ⟨p, hp, by simp [hnone]⟩
    · intro hmem
      obtain ⟨t, ht, hfst⟩ := List.mem_map.mp hmem
      obtain ⟨q, _, hsome⟩ := List.mem_filterMap.mp ht
      obtain ⟨htq, htc, _⟩ := scat_elem_shape _ q t hsome
      rw [htq] at hfst
      rw [hfst] at htc
      rw [hnone] at htc
      cases htc
    · intro hmem
      obtain ⟨t, ht, hfst⟩ := List.mem_map.mp hmem
      obtain ⟨q, _, hsome⟩ := List.mem_filterMap.mp ht
      obtain ⟨htq, htc⟩ := pie_elem_shape _ q t hsome
      rw [htq] at hfst
      rw [hfst] at htc
      rw [hnone] at htc
      cases htc
  · rintro hp ⟨x, hx, hxp, hxs⟩
    obtain ⟨v, hv⟩ := groupLast_isSome _ p Col.totalCases x hx hxp hxs
    refine ⟨v, hv, ?_, ?_⟩
    · exact List.mem_map.mpr ⟨p, hp, by simp [hv]⟩
    · exact List.mem_filterMap.mpr ⟨p, hp, by simp [hv]⟩
  · rintro hp ⟨x, hx, hxp, hxs⟩ ⟨y, hy, hyp, hys⟩
    obtain ⟨v₁, hv₁⟩ := groupLast_isSome _ p Col.totalCases x hx hxp hxs
    obtain ⟨v₂, hv₂⟩ := groupLast_isSome _ p Col.totalDeaths y hy hyp hys
    exact List.mem_map.mpr
      ⟨(p, v₁, v₂), List.mem_filterMap.mpr ⟨p, hp, by simp [hv₁, hv₂]⟩, rfl⟩

/-- Witness for C3: province A has one in-range record with values, province
B is selected but has no records. -/
theorem C3_missing_region_policy_witness :
    ("B" ∈ ["A", "B"]) ∧
    (∀ x ∈ App.filtered_df
        [({ province := "A", date := 1, totalCases := some 4,
            totalDeaths := some 2 } : Record)] ["A", "B"] 0 5,
      x.province ≠ "B") ∧
    (("B", (0 : ℤ)) ∈ App.bar_data (App.filtered_df
        [({ province := "A", date := 1, totalCases := some 4,
            totalDeaths := some 2 } : Record)] ["A", "B"] 0 5) ["A", "B"] ∧
      "B" ∉ (App.scat_df (App.filtered_df
        [({ province := "A", date := 1, totalCases := some 4,
            totalDeaths := some 2 } : Record)] ["A", "B"] 0 5)
          ["A", "B"]).map (fun t => t.1) ∧
      "B" ∉ (App.pie_df (App.filtered_df
        [({ province := "A", date := 1, totalCases := some 4,
            totalDeaths := some 2 } : Record)] ["A", "B"] 0 5)
          ["A", "B"]).map Prod.fst) ∧
    (∃ v, groupLast (App.filtered_df
        [({ province := "A", date := 1, totalCases := some 4,
            totalDeaths := some 2 } : Record)] ["A", "B"] 0 5)
          "A" Col.totalCases = some v ∧
      ("A", v) ∈ App.bar_data (App.filtered_df
        [({ province := "A", date := 1, totalCases := some 4,
            totalDeaths := some 2 } : Record)] ["A", "B"] 0 5) ["A", "B"] ∧
      ("A", v) ∈ App.pie_df (App.filtered_df
        [({ province := "A", date := 1, totalCases := some 4,
            totalDeaths := some 2 } : Record)] ["A", "B"] 0 5) ["A", "B"]) ∧
    ("A" ∈ (App.scat_df (App.filtered_df
        [({ province := "A", date := 1, totalCases := some 4,
            totalDeaths := some 2 } : Record)] ["A", "B"] 0 5)
          ["A", "B"]).map (fun t => t.1)) := by
  refine ⟨by decide, by decide, ?_, ?_, ?_⟩
  · exact (C3_missing_region_policy
      [{ province := "A", date := 1, totalCases := some 4,
         totalDeaths := some 2 }] ["A", "B"] 0 5 "B").1 (by decide) (by decide)
  · exact (C3_missing_region_policy
      [{ province := "A", date := 1, totalCases := some 4,
         totalDeaths := some 2 }] ["A", "B"] 0 5 "A").2.1 (by decide)
      ⟨{ province := "A", date := 1, totalCases := some 4,
         totalDeaths := some 2 }, by decide⟩
  · exact (C3_missing_region_policy
      [{ province := "A", date := 1, totalCases := some 4,
         totalDeaths := some 2 }] ["A", "B"] 0 5 "A").2.2 (by decide)
      ⟨{ province := "A", date := 1, totalCases := some 4,
         totalDeaths := some 2 }, by decide⟩
      ⟨{ province := "A", date := 1, totalCases := some 4,
         totalDeaths := some 2 }, by decide⟩

/-- Counterexample to C3 as stated: province B has a record in the Filtered
View (with a null `Total Cases` cell), yet the pie aggregation drops it and
the bar aggregation zero-fills it. -/
theorem C3_null_region_cex :
    (({ province := "B", date := 0 } : Record) ∈
        App.filtered_df [{ province := "B", date := 0 }] ["B"] 0 0) ∧
    App.pie_df (App.filtered_df [{ province := "B", date := 0 }] ["B"] 0 0)
      ["B"] = [] ∧
    groupLast (App.filtered_df [{ province := "B", date := 0 }] ["B"] 0 0)
      "B" Col.totalCases = none ∧
    App.bar_data (App.filtered_df [{ province := "B", date := 0 }] ["B"] 0 0)
      ["B"] = [("B", 0)] := by
  exact ⟨by decide, by decide, by decide, by decide⟩

/-- The centered cross sum is symmetric in its two columns. -/
lemma crossSum_symm (rows : List Record) (i j : Col) :
    crossSum rows i j = crossSum rows j i := by
  unfold crossSum
  have h : (rows.map (fun r => cellv r i * cellv r j)) =
      (rows.map (fun r => cellv r j * cellv r i)) :=
    List.map_congr_left (fun r _ => mul_comm _ _)
  rw [h, mul_comm ((rows.map (fun r => cellv r i)).sum)]

/-- C4 (amended: the diagonal entry of a qualifying column equals 1.0 exactly
when the column has nonzero variance over the dropna rows; a zero-variance
column — e.g. a single remaining row — yields pandas NaN on its diagonal):
the heatmap's correlation matrix is symmetric, and each diagonal entry is 1.0
given nonzero variance and NaN given zero variance. -/
theorem C4_corr_symmetry_diagonal (present : List Col) (rows : List Record)
    (i j : Col) :
    corrEntry (App.corrRows present rows) i j =
      corrEntry (App.corrRows present rows) j i ∧
    (0 < crossSum (App.corrRows present rows) i i →
      (corrEntry (App.corrRows present rows) i i).repOne) ∧
    (crossSum (App.corrRows present rows) i i = 0 →
      (corrEntry (App.corrRows present rows) i i).isNaN) := by
  refine ⟨?_, ?_, ?_⟩
  · unfold corrEntry
    rw [crossSum_symm (App.corrRows present rows) i j, mul_comm]
  · intro h
    exact ⟨h, pow_two _⟩
  · intro h
    show crossSum (App.corrRows present rows) i i *
      crossSum (App.corrRows present rows) i i = 0
    rw [h, mul_zero]

/-- Witness for C4 on a two-row frame with a nonconstant column. -/
theorem C4_corr_symmetry_diagonal_witness :
    0 < crossSum (App.corrRows [Col.totalCases, Col.totalDeaths]
      [({ province := "A", date := 0, totalCases := some 0,
          totalDeaths := some 0 } : Record),
       { province := "A", date := 1, totalCases := some 1,
         totalDeaths := some 1 }]) Col.totalCases Col.totalCases ∧
    corrEntry (App.corrRows [Col.totalCases, Col.totalDeaths]
      [({ province := "A", date := 0, totalCases := some 0,
          totalDeaths := some 0 } : Record),
       { province := "A", date := 1, totalCases := some 1,
         totalDeaths := some 1 }]) Col.totalCases Col.totalDeaths =
      corrEntry (App.corrRows [Col.totalCases, Col.totalDeaths]
        [({ province := "A", date := 0, totalCases := some 0,
            totalDeaths := some 0 } : Record),
         { province := "A", date := 1, totalCases := some 1,
           totalDeaths := some 1 }]) Col.totalDeaths Col.totalCases ∧
    (corrEntry (App.corrRows [Col.totalCases, Col.totalDeaths]
      [({ province := "A", date := 0, totalCases := some 0,
          totalDeaths := some 0 } : Record),
       { province := "A", date := 1, totalCases := some 1,
         totalDeaths := some 1 }]) Col.totalCases Col.totalCases).repOne := by
  have hpos : 0 < crossSum (App.corrRows [Col.totalCases, Col.totalDeaths]
      [({ province := "A", date := 0, totalCases := some 0,
          totalDeaths := some 0 } : Record),
       { province := "A", date := 1, totalCases := some 1,
         totalDeaths := some 1 }]) Col.totalCases Col.totalCases := by decide
  refine ⟨hpos, ?_, ?_⟩
  · exact (C4_corr_symmetry_diagonal [Col.totalCases, Col.totalDeaths]
      [{ province := "A", date := 0, totalCases := some 0,
         totalDeaths := some 0 },
       { province := "A", date := 1, totalCases := some 1,
         totalDeaths := some 1 }] Col.totalCases Col.totalDeaths).1
  · exact (C4_corr_symmetry_diagonal [Col.totalCases, Col.totalDeaths]
      [{ province := "A", date := 0, totalCases := some 0,
         totalDeaths := some 0 },
       { province := "A", date := 1, totalCases := some 1,
         totalDeaths := some 1 }] Col.totalCases Col.totalCases).2.1 hpos

/-- Counterexample to C4 as stated: with a single row the heatmap guard
passes (nonempty frame, two qualifying columns), yet every diagonal entry is
pandas NaN — not 1.0 — because the variance is zero. -/
theorem C4_single_row_diagonal_cex :
    App.corrComputed [Col.totalCases, Col.totalDeaths]
      [{ province := "A", date := 0, totalCases := some 3,
         totalDeaths := some 4 }] = true ∧
    (corrEntry (App.corrRows [Col.totalCases, Col.totalDeaths]
      [{ province := "A", date := 0, totalCases := some 3,
         totalDeaths := some 4 }]) Col.totalCases Col.totalCases).isNaN ∧
    ¬(corrEntry (App.corrRows [Col.totalCases, Col.totalDeaths]
      [{ province := "A", date := 0, totalCases := some 3,
         totalDeaths := some 4 }]) Col.totalCases Col.totalCases).repOne := by
  exact ⟨by decide, by decide, by decide⟩

/-- C5 (amended: src/app.py considers the seven-column set, while
src/covid19/app.py considers only the five columns new cases, new deaths,
total cases, total deaths, total active cases): qualifying columns are the
present members of the file's column list, rows with a null in any
qualifying column are dropped, and the matrix is computed exactly when at
least two columns and one row remain. -/
theorem C5_corr_gating (present : List Col) (rows : List Record) (c : Col)
    (r : Record) :
    (c ∈ App.corrCols present ↔
      c ∈ [Col.newCases, Col.newDeaths, Col.newRecovered, Col.totalCases,
        Col.totalDeaths, Col.totalRecovered, Col.totalActiveCases] ∧
      c ∈ present) ∧
    (c ∈ Cov.corrCols present ↔
      c ∈ [Col.newCases, Col.newDeaths, Col.totalCases, Col.totalDeaths,
        Col.totalActiveCases] ∧ c ∈ present) ∧
    (r ∈ App.corrRows present rows ↔
      r ∈ rows ∧ ∀ cc ∈ App.corrCols present, (r.val cc).isSome) ∧
    (App.corrComputed present rows = true ↔
      App.corrRows present rows ≠ [] ∧ 2 ≤ (App.corrCols present).length) ∧
    (Cov.corrComputed present rows = true ↔
      Cov.corrRows present rows ≠ [] ∧ 2 ≤ (Cov.corrCols present).length) := by
  refine ⟨?_, ?_, ?_, ?_, ?_⟩
  · simp [App.corrCols, List.mem_filter]
  · simp [Cov.corrCols, List.mem_filter]
  · simp [App.corrRows, dropnaRows, List.mem_filter, List.all_eq_true]
  · simp [App.corrComputed, List.isEmpty_iff, and_comm]
  · simp [Cov.corrComputed, List.isEmpty_iff, and_comm]

/-- Counterexample to C5 as stated: `New Recovered` is present in the data
and the heatmap of src/covid19/app.py is computed, yet that file's
aggregation does not consider the column (src/app.py does). -/
theorem C5_covid_five_cols_cex :
    Col.newRecovered ∈
      ([Col.newRecovered, Col.totalCases, Col.newCases] : List Col) ∧
    Cov.corrComputed [Col.newRecovered, Col.totalCases, Col.newCases]
      [{ province := "A", date := 0, newCases := some 1,
         newRecovered := some 2, totalCases := some 3 }] = true ∧
    Col.newRecovered ∉
      Cov.corrCols [Col.newRecovered, Col.totalCases, Col.newCases] ∧
    Col.newRecovered ∈
      App.corrCols [Col.newRecovered, Col.totalCases, Col.newCases] := by
  exact ⟨by decide, by decide, by decide, by decide⟩

/-- C7 (amended: in src/app.py a missing `Date` or `Province` column halts
the session via SchemaInvalid before any filtering; in src/covid19/app.py a
missing `Province` column halts via SchemaInvalid, but a missing `Date`
column is only warned about by the loader, and the session then dies on an
uncaught key error at the date-bound computation — still before any
filtering or aggregation). -/
theorem C7_mandatory_columns (s : Schema) :
    (s.hasDate = false → App.startup true s = .error .schemaInvalidDate) ∧
    (s.hasDate = true → s.hasProvince = false →
      App.startup true s = .error .schemaInvalidProvince) ∧
    (s.hasProvince = false →
      Cov.startup true s = .error .schemaInvalidProvince) ∧
    (s.hasProvince = true → s.hasDate = false →
      Cov.load_data true s = .ok (s, true) ∧
      Cov.startup true s = .error .keyError) := by
  refine ⟨?_, ?_, ?_, ?_⟩
  · intro h
    simp [App.startup, App.load_data, h]
  · intro h1 h2
    simp [App.startup, App.load_data, h1, h2]
  · intro h
    simp [Cov.startup, Cov.load_data, h]
  · intro h1 h2
    exact ⟨by simp [Cov.load_data, h2], by simp [Cov.startup, Cov.load_data, h1, h2]⟩

/-- Witness for C7 at a schema missing the `Date` column. -/
theorem C7_mandatory_columns_witness :
    Schema.hasDate ⟨false, true, []⟩ = false ∧
    App.startup true ⟨false, true, []⟩ = .error .schemaInvalidDate ∧
    Cov.load_data true ⟨false, true, []⟩ = .ok (⟨false, true, []⟩, true) ∧
    Cov.startup true ⟨false, true, []⟩ = .error .keyError :=
  ⟨rfl, (C7_mandatory_columns ⟨false, true, []⟩).1 rfl,
    ((C7_mandatory_columns ⟨false, true, []⟩).2.2.2 rfl rfl).1,
    ((C7_mandatory_columns ⟨false, true, []⟩).2.2.2 rfl rfl).2⟩

/-- Counterexample to C7 as stated: with the `Date` column absent the
src/covid19/app.py loader does not fail — it returns the frame with only a
warning — and the session later halts with an uncaught key error, not with
the SchemaInvalid stop. -/
theorem C7_covid_date_warning_cex :
    Cov.load_data true ⟨false, true, []⟩ = .ok (⟨false, true, []⟩, true) ∧
    Cov.startup true ⟨false, true, []⟩ = .error .keyError ∧
    Cov.startup true ⟨false, true, []⟩ ≠ .error .schemaInvalidDate := by
  refine ⟨rfl, rfl, ?_⟩
  intro h
  cases h

/-- Under a schema without the two recovered columns, the two files select
the same qualifying correlation columns. -/
lemma corrCols_agree (present : List Col)
    (hNR : Col.newRecovered ∉ present) (hTR : Col.totalRecovered ∉ present) :
    App.corrCols present = Cov.corrCols present := by
  simp [App.corrCols, Cov.corrCols, List.filter_cons, hNR, hTR]

/-- C9 (amended: the two files compute identical filter, latest-totals,
scatter, pie, daily-trend and detail-table outputs on identical inputs, but
their correlation stages differ — src/covid19/app.py considers only five of
the seven columns, so the heatmap outputs are guaranteed to coincide only
when `New Recovered` and `Total Recovered` are absent from the data). -/
theorem C9_pipeline_equivalence (df : List Record) (provinces : List String)
    (s e : Nat) (p : String) (present : List Col) (rows : List Record)
    (hNR : Col.newRecovered ∉ present) (hTR : Col.totalRecovered ∉ present) :
    App.filtered_df df provinces s e = Cov.filtered_df df provinces s e ∧
    App.invalid_range_warning s e = Cov.invalid_range_warning s e ∧
    App.bar_data rows provinces = Cov.bar_data rows provinces ∧
    App.scat_df rows provinces = Cov.scat_df rows provinces ∧
    App.pie_df rows provinces = Cov.pie_df rows provinces ∧
    App.area_df rows = Cov.area_df rows ∧
    App.show_df rows p = Cov.show_df rows p ∧
    App.table_result rows provinces = Cov.table_result rows provinces ∧
    App.corr_result present rows = Cov.corr_result present rows := by
  have hc := corrCols_agree present hNR hTR
  refine ⟨rfl, rfl, rfl, rfl, rfl, rfl, rfl, rfl, ?_⟩
  rw [App.corr_result, Cov.corr_result, App.corrComputed, Cov.corrComputed,
    App.corrRows, Cov.corrRows, hc]

/-- Witness for C9 at concrete inputs without the recovered columns. -/
theorem C9_pipeline_equivalence_witness :
    Col.newRecovered ∉ ([Col.totalCases, Col.totalDeaths] : List Col) ∧
    Col.totalRecovered ∉ ([Col.totalCases, Col.totalDeaths] : List Col) ∧
    (App.filtered_df [] ["A"] 0 1 = Cov.filtered_df [] ["A"] 0 1 ∧
      App.invalid_range_warning 0 1 = Cov.invalid_range_warning 0 1 ∧
      App.bar_data [] ["A"] = Cov.bar_data [] ["A"] ∧
      App.scat_df [] ["A"] = Cov.scat_df [] ["A"] ∧
      App.pie_df [] ["A"] = Cov.pie_df [] ["A"] ∧
      App.area_df [] = Cov.area_df [] ∧
      App.show_df [] "A" = Cov.show_df [] "A" ∧
      App.table_result [] ["A"] = Cov.table_result [] ["A"] ∧
      App.corr_result [Col.totalCases, Col.totalDeaths] [] =
        Cov.corr_result [Col.totalCases, Col.totalDeaths] []) :=
  ⟨by decide, by decide,
    C9_pipeline_equivalence [] ["A"] 0 1 "A" [Col.totalCases, Col.totalDeaths]
      [] (by decide) (by decide)⟩

/-- Counterexample to C9 as stated: with `New Recovered` present both
heatmaps are computed, but over different column sets, so the corresponding
correlation outputs differ. -/
theorem C9_corr_divergence_cex :
    App.corrComputed [Col.newCases, Col.newRecovered, Col.totalCases]
      [({ province := "A", date := 0, newCases := some 0,
          newRecovered := some 0, totalCases := some 0 } : Record),
       { province := "A", date := 1, newCases := some 1,
         newRecovered := some 1, totalCases := some 1 }] = true ∧
    Cov.corrComputed [Col.newCases, Col.newRecovered, Col.totalCases]
      [({ province := "A", date := 0, newCases := some 0,
          newRecovered := some 0, totalCases := some 0 } : Record),
       { province := "A", date := 1, newCases := some 1,
         newRecovered := some 1, totalCases := some 1 }] = true ∧
    App.corr_result [Col.newCases, Col.newRecovered, Col.totalCases]
      [({ province := "A", date := 0, newCases := some 0,
          newRecovered := some 0, totalCases := some 0 } : Record),
       { province := "A", date := 1, newCases := some 1,
         newRecovered := some 1, totalCases := some 1 }] ≠
    Cov.corr_result [Col.newCases, Col.newRecovered, Col.totalCases]
      [({ province := "A", date := 0, newCases := some 0,
          newRecovered := some 0, totalCases := some 0 } : Record),
       { province := "A", date := 1, newCases := some 1,
         newRecovered := some 1, totalCases := some 1 }] := by
  exact ⟨by decide, by decide, by decide⟩
